import Mathlib

/-!
Shallow embedding of django-request-logging (src/request_logging/middleware.py).
Requests, responses and settings are modelled as explicit structures; each
logging call is recorded as a LogEntry value, so the two middleware hooks
return the list of entries they would emit, in order.  Python byte strings
are lists of byte values; Python slicing, str() conversion of str, bytes and
dict values, and Python numeric equality between bool and int are embedded
explicitly.
-/

namespace logging

/-- Severity constant NOTSET of the standard logging module. -/
def NOTSET : Int := 0

/-- Severity constant DEBUG of the standard logging module. -/
def DEBUG : Int := 10

/-- Severity constant INFO of the standard logging module. -/
def INFO : Int := 20

/-- Severity constant WARNING of the standard logging module. -/
def WARNING : Int := 30

/-- Severity constant ERROR of the standard logging module. -/
def ERROR : Int := 40

/-- Severity constant CRITICAL of the standard logging module. -/
def CRITICAL : Int := 50

end logging

/-- Default for REQUEST_LOGGING_DATA_LOG_LEVEL (middleware.py line 8). -/
def DEFAULT_LOG_LEVEL : Int := logging.DEBUG

/-- Default for REQUEST_LOGGING_DISABLE_COLORIZE (middleware.py line 9). -/
def DEFAULT_COLORIZE : Bool := true

/-- Default for REQUEST_LOGGING_MAX_BODY_LENGTH (middleware.py line 10). -/
def DEFAULT_MAX_BODY_LENGTH : Int := 50000

/-- A Python value as it can appear in a Django settings entry: an int, a
bool or a str.  Separate constructors let us embed the type(x) is int and
type(x) is bool checks of the source exactly. -/
inductive PyVal where
  | vInt (n : Int)
  | vBool (b : Bool)
  | vStr (s : String)

deriving instance DecidableEq for PyVal

/-- Python == between a value and an int: Python bools compare equal to
their numeric value (True == 1, False == 0); a str never equals an int. -/
def pyEqInt : PyVal → Int → Bool
  | PyVal.vInt m, n => m == n
  | PyVal.vBool b, n => (if b then (1 : Int) else 0) == n
  | PyVal.vStr _, _ => false

/-- Numeric value of a PyVal that passed a numeric comparison (str case is
never reached by the middleware constructor). -/
def pyValToInt : PyVal → Int
  | PyVal.vInt n => n
  | PyVal.vBool b => if b then 1 else 0
  | PyVal.vStr _ => 0

/-- The three Django settings the middleware reads with getattr and a
default: none models an absent setting. -/
structure Settings where
  log_level : Option PyVal
  colorize : Option PyVal
  max_body_length : Option PyVal

deriving instance DecidableEq for Settings

/-- ASCII lower-casing of one character, as str.lower and re.I act on the
ASCII header names and values in play. -/
def charLower (c : Char) : Char :=
  if 65 ≤ c.toNat ∧ c.toNat ≤ 90 then Char.ofNat (c.toNat + 32) else c

/-- ASCII lower-casing of a str. -/
def strToLower (s : String) : String :=
  String.mk (s.data.map charLower)

/-- str.startswith as a character-list prefix test. -/
def strStartsWithB (s : String) (pre : String) : Bool :=
  pre.data.isPrefixOf s.data

/-- One hexadecimal digit, lower case, as Python repr prints it. -/
def hexDigit (n : Nat) : String :=
  String.singleton (if n < 10 then Char.ofNat (48 + n) else Char.ofNat (87 + n))

/-- Quote character chosen by Python repr for a bytes object: a single
quote (39) unless the bytes contain one and contain no double quote (34). -/
def bytesQuote (l : List Nat) : Nat :=
  if l.contains 39 ∧ ¬ l.contains 34 then 34 else 39

/-- Python repr escaping of one byte inside quotes q. -/
def byteEscape (q : Nat) (c : Nat) : String :=
  if c = 92 then "\\\\"
  else if c = q then "\\" ++ (Char.ofNat q).toString
  else if c = 9 then "\\t"
  else if c = 10 then "\\n"
  else if c = 13 then "\\r"
  else if 32 ≤ c ∧ c ≤ 126 then (Char.ofNat c).toString
  else "\\x" ++ hexDigit (c / 16) ++ hexDigit (c % 16)

/-- Python str()/repr() of a bytes object: a b-prefixed quoted literal, not
the raw bytes. -/
def bytesRepr (l : List Nat) : String :=
  "b" ++ (Char.ofNat (bytesQuote l)).toString
    ++ String.join (l.map (byteEscape (bytesQuote l)))
    ++ (Char.ofNat (bytesQuote l)).toString

/-- Quote character chosen by Python repr for a str. -/
def strQuote (s : String) : Nat :=
  if s.data.contains (Char.ofNat 39) ∧ ¬ s.data.contains (Char.ofNat 34) then 34 else 39

/-- Python repr escaping of one character inside quotes q. -/
def charEscape (q : Nat) (c : Char) : String :=
  if c.toNat = 92 then "\\\\"
  else if c.toNat = q then "\\" ++ (Char.ofNat q).toString
  else if c.toNat = 9 then "\\t"
  else if c.toNat = 10 then "\\n"
  else if c.toNat = 13 then "\\r"
  else if c.toNat < 32 ∨ c.toNat = 127 then "\\x" ++ hexDigit (c.toNat / 16) ++ hexDigit (c.toNat % 16)
  else c.toString

/-- Python repr() of a str (as it appears inside the repr of a dict). -/
def strRepr (s : String) : String :=
  (Char.ofNat (strQuote s)).toString
    ++ String.join (s.data.map (charEscape (strQuote s)))
    ++ (Char.ofNat (strQuote s)).toString

/-- Python str() of a dict of strings, brace-delimited comma-separated
repr pairs. -/
def dictRepr (kvs : List (String × String)) : String :=
  "\x7b" ++ String.intercalate ", " (kvs.map fun kv => strRepr kv.1 ++ ": " ++ strRepr kv.2) ++ "\x7d"

/-- A message handed to Logger.log: the middleware passes either a str, a
bytes object (request or response body) or a dict (headers). -/
inductive Msg where
  | str (s : String)
  | bytes (b : List Nat)
  | dict (kvs : List (String × String))

deriving instance DecidableEq for Msg

/-- str(msg) as applied by the loggers before dispatch. -/
def pyStr : Msg → String
  | Msg.str s => s
  | Msg.bytes l => bytesRepr l
  | Msg.dict kvs => dictRepr kvs

/-- The argument type of the truncation helper: request.body and
response.content are bytes, but the function itself also accepts str
(len, slicing and formatting are generic). -/
inductive Body where
  | str (s : String)
  | bytes (b : List Nat)

deriving instance DecidableEq for Body

/-- len(msg) for a str or bytes message. -/
def Body.len : Body → Nat
  | Body.str s => s.length
  | Body.bytes b => b.length

/-- A str or bytes value used as a log message. -/
def Body.toMsg : Body → Msg
  | Body.str s => Msg.str s
  | Body.bytes b => Msg.bytes b

/-- Stop index of the Python slice x[0:n] on a sequence of length len: a
negative n counts from the end and clamps at 0; a large n clamps at len. -/
def sliceStop (len : Nat) (n : Int) : Nat :=
  if n < 0 then ((len : Int) + n).toNat else n.toNat

/-- The Python slice msg[0:n] on a str or bytes value. -/
def Body.slice0 : Body → Int → Body
  | Body.str s, n => Body.str (String.mk (s.data.take (sliceStop s.length n)))
  | Body.bytes b, n => Body.bytes (b.take (sliceStop b.length n))

/-- What the format string piece "\x7b0\x7d" produces for a str or bytes
argument: str stays itself, bytes become their textual repr. -/
def pyFormat : Body → String
  | Body.str s => s
  | Body.bytes l => bytesRepr l

/-- One recorded logging call: the severity passed to request_logger.log,
the stringified message, and the colorize tag wrapped around it (none when
the plain Logger was used). -/
structure LogEntry where
  level : Int
  msg : String
  colour : Option String

deriving instance DecidableEq for LogEntry

/-- The sink adapter chosen at construction: the plain Logger, or
ColourLogger with its two colour fields (middleware.py lines 19-41). -/
inductive LoggerKind where
  | plain
  | colour (log_colour : String) (log_error_colour : String)

deriving instance DecidableEq for LoggerKind

/-- Logger.log / ColourLogger.log: the colour variant picks
log_error_colour when level is at least logging.ERROR, else log_colour. -/
def LoggerKind.log : LoggerKind → Int → Msg → LogEntry
  | LoggerKind.plain, level, msg => ⟨level, pyStr msg, none⟩
  | LoggerKind.colour c ce, level, msg =>
      ⟨level, pyStr msg, some (if level ≥ logging.ERROR then ce else c)⟩

/-- Logger.log_error / ColourLogger.log_error: the plain variant delegates
to log; the colour variant forces log_error_colour whatever the level. -/
def LoggerKind.log_error : LoggerKind → Int → Msg → LogEntry
  | LoggerKind.plain, level, msg => LoggerKind.plain.log level msg
  | LoggerKind.colour _ ce, level, msg => ⟨level, pyStr msg, some ce⟩

/-- A Django request as the middleware reads it: method, the full path
with query string as returned by get_full_path(), the META mapping, and
the raw body bytes. -/
structure Request where
  method : String
  full_path : String
  META : List (String × String)
  body : List Nat

deriving instance DecidableEq for Request

/-- A Django response as the middleware reads it: status code, the header
mapping, and the content bytes. -/
structure Response where
  status_code : Int
  headers : List (String × String)
  content : List Nat

deriving instance DecidableEq for Response

/-- HttpResponse.get(header, alternate): case-insensitive header lookup
with a default. -/
def Response.get (response : Response) (header : String) (alternate : String) : String :=
  match response.headers.find? (fun kv => strToLower kv.1 == strToLower header) with
  | some kv => kv.2
  | none => alternate

/-- re.match of the pattern anchored at application/json against the
Content-Type header with re.I: a case-insensitive prefix test. -/
def jsonContentMatch (response : Response) : Bool :=
  strStartsWithB (strToLower (response.get "Content-Type" "")) "application/json"

/-- The middleware state after a successful constructor run: the resolved
log level, the resolved max body length, and the chosen logger. -/
structure LoggingMiddleware where
  log_level : Int
  max_body_length : Int
  logger : LoggerKind

deriving instance DecidableEq for LoggingMiddleware

/-- Boolean validity of the resolved log level setting: the membership test
of the constructor. -/
def levelSettingOK (settings : Settings) : Bool :=
  [logging.NOTSET, logging.DEBUG, logging.INFO, logging.WARNING,
   logging.ERROR, logging.CRITICAL].any fun n =>
    pyEqInt (settings.log_level.getD (PyVal.vInt DEFAULT_LOG_LEVEL)) n

/-- Boolean validity of the resolved colorize setting: type(x) is bool. -/
def colorizeSettingOK (settings : Settings) : Bool :=
  match settings.colorize.getD (PyVal.vBool DEFAULT_COLORIZE) with
  | PyVal.vBool _ => true
  | _ => false

/-- Boolean validity of the resolved max body length setting: type(x) is
int. -/
def maxBodySettingOK (settings : Settings) : Bool :=
  match settings.max_body_length.getD (PyVal.vInt DEFAULT_MAX_BODY_LENGTH) with
  | PyVal.vInt _ => true
  | _ => false

/-- LoggingMiddleware.__init__ (middleware.py lines 45-65): resolve the
three settings with their defaults, raise ValueError on an unknown log
level, a non-bool colorize flag or a non-int max body length, and pick
ColourLogger cyan/magenta or the plain Logger. -/
def LoggingMiddleware.init (settings : Settings) : Except String LoggingMiddleware :=
  let log_level := settings.log_level.getD (PyVal.vInt DEFAULT_LOG_LEVEL)
  if levelSettingOK settings = false then
    Except.error "Unknown log level in setting REQUEST_LOGGING_DATA_LOG_LEVEL"
  else
    let enable_colorize := settings.colorize.getD (PyVal.vBool DEFAULT_COLORIZE)
    match enable_colorize with
    | PyVal.vBool b =>
        let max_body_length := settings.max_body_length.getD (PyVal.vInt DEFAULT_MAX_BODY_LENGTH)
        match max_body_length with
        | PyVal.vInt n =>
            Except.ok ⟨pyValToInt log_level, n,
              if b then LoggerKind.colour "cyan" "magenta" else LoggerKind.plain⟩
        | _ => Except.error "REQUEST_LOGGING_MAX_BODY_LENGTH should be int"
    | _ => Except.error "REQUEST_LOGGING_DISABLE_COLORIZE should be boolean"

/-- True when the Except carries a middleware, false when the constructor
raised. -/
def okB : Except String LoggingMiddleware → Bool
  | Except.ok _ => true
  | Except.error _ => false

/-- LoggingMiddleware._chunked_to_max (middleware.py lines 95-99): a
message longer than max_body_length becomes the formatted slice msg[0:max]
followed by a newline, three dots and a newline; otherwise the message is
returned unchanged. -/
def _chunked_to_max (max_body_length : Int) (msg : Body) : Body :=
  if (msg.len : Int) > max_body_length then
    Body.str (pyFormat (msg.slice0 max_body_length) ++ "\n...\n")
  else msg

/-- LoggingMiddleware.process_request (middleware.py lines 67-76): log the
method and full path at INFO, then the HTTP_-prefixed META entries at the
configured level when any exist, then the truncated body at the configured
level when the body is non-empty. -/
def LoggingMiddleware.process_request (m : LoggingMiddleware) (request : Request) :
    List LogEntry :=
  let method_path := request.method ++ " " ++ request.full_path
  let headers := request.META.filter fun kv => strStartsWithB kv.1 "HTTP_"
  m.logger.log logging.INFO (Msg.str method_path) ::
    ((if headers = [] then [] else [m.logger.log m.log_level (Msg.dict headers)]) ++
     (if request.body = [] then []
      else [m.logger.log m.log_level
        (Body.toMsg (_chunked_to_max m.max_body_length (Body.bytes request.body)))]))

/-- LoggingMiddleware._log_resp (middleware.py lines 90-93): when the
Content-Type matches application/json, log the header mapping and the
truncated content at the given level. -/
def LoggingMiddleware._log_resp (m : LoggingMiddleware) (level : Int) (response : Response) :
    List LogEntry :=
  if jsonContentMatch response then
    [m.logger.log level (Msg.dict response.headers),
     m.logger.log level (Body.toMsg (_chunked_to_max m.max_body_length (Body.bytes response.content)))]
  else []

/-- LoggingMiddleware.process_response (middleware.py lines 78-88): build
the status line; for a status in range(400, 600) log it through log_error
at INFO and the response details at ERROR, otherwise log it through log at
INFO and the details at the configured level; return the response. -/
def LoggingMiddleware.process_response (m : LoggingMiddleware) (request : Request)
    (response : Response) : List LogEntry × Response :=
  let resp_log := request.method ++ " " ++ request.full_path ++ " - " ++ toString response.status_code
  (if 400 ≤ response.status_code ∧ response.status_code < 600 then
    m.logger.log_error logging.INFO (Msg.str resp_log) :: m._log_resp logging.ERROR response
  else
    m.logger.log logging.INFO (Msg.str resp_log) :: m._log_resp m.log_level response,
  response)


/-- A middleware built from the default settings. -/
def mw0 : LoggingMiddleware := ⟨logging.DEBUG, 50000, LoggerKind.colour "cyan" "magenta"⟩

/-- A GET request for /x?y=1 with no HTTP_ header entries and an empty
body. -/
def req0 : Request := ⟨"GET", "/x?y=1", [("SERVER_NAME", "testserver")], []⟩

/-- A 404 JSON response whose content bytes spell a small JSON object. -/
def resp404 : Response := ⟨404, [("Content-Type", "application/json")], [123, 34, 101, 34, 58, 49, 125]⟩

/-- A 200 text/plain response. -/
def resp200 : Response := ⟨200, [("Content-Type", "text/plain")], [104, 105]⟩

/-- The slice stop of a nonnegative limit is the limit itself. -/
lemma sliceStop_ofNat (len N : Nat) : sliceStop len (N : Int) = N := by
  unfold sliceStop
  have h : ¬ ((N : Int) < 0) := by omega
  rw [if_neg h]
  omega

/-- Claim C1, counterexample: at msg = ab and N = 1 the truncated output
has length 6, not N + 4 = 5, because the appended marker is five
characters long (a newline, three dots, a newline). -/
theorem C1_counterexample :
    ¬ ((_chunked_to_max 1 (Body.str "ab")).len = 1 + 4) := by decide

/-- Claim C1 (amended): for every str message and every max body length N,
truncation is the identity when the length is at most N; when the length
exceeds N the output is the first N characters followed by the marker, and
its length is N + 5. -/
theorem C1_truncation (s : String) (N : Nat) :
    (s.length ≤ N → _chunked_to_max (N : Int) (Body.str s) = Body.str s) ∧
    (N < s.length →
      _chunked_to_max (N : Int) (Body.str s)
          = Body.str (String.mk (s.data.take N) ++ "\n...\n") ∧
      (_chunked_to_max (N : Int) (Body.str s)).len = N + 5) := by
  constructor
  · intro h
    unfold _chunked_to_max
    rw [if_neg]
    intro hlt
    have : (N : Int) < (s.length : Int) := by simpa [Body.len] using hlt
    omega
  · intro h
    have hcond : ((Body.str s).len : Int) > (N : Int) := by
      simp only [Body.len]
      exact_mod_cast h
    have heq : _chunked_to_max (N : Int) (Body.str s)
        = Body.str (String.mk (s.data.take N) ++ "\n...\n") := by
      unfold _chunked_to_max
      rw [if_pos hcond]
      simp [Body.slice0, sliceStop_ofNat, pyFormat]
    refine ⟨heq, ?_⟩
    rw [heq]
    have htake : (String.mk (s.data.take N)).length = N := by
      show (s.data.take N).length = N
      have : s.data.length = s.length := rfl
      simp [List.length_take]
      omega
    show (String.mk (s.data.take N) ++ "\n...\n").length = N + 5
    rw [String.length_append, htake]
    rfl

/-- Claim C1 witness: concrete instance at s = abc, N = 2. -/
theorem C1_truncation_witness :
    _chunked_to_max 2 (Body.str "abc")
        = Body.str (String.mk ("abc".data.take 2) ++ "\n...\n") ∧
    (_chunked_to_max 2 (Body.str "abc")).len = 2 + 5 :=
  (C1_truncation "abc" 2).2 (by decide)

/-- Claim C3: the colour sink always uses the error colour in log_error,
whatever the level, and in log uses the error colour exactly when the
level reaches logging.ERROR and the normal colour otherwise. -/
theorem C3_colour_logger (log_colour : String) (log_error_colour : String)
    (level : Int) (msg : Msg) :
    (LoggerKind.colour log_colour log_error_colour).log_error level msg
        = ⟨level, pyStr msg, some log_error_colour⟩ ∧
    (LoggerKind.colour log_colour log_error_colour).log level msg
        = ⟨level, pyStr msg,
            some (if level ≥ logging.ERROR then log_error_colour else log_colour)⟩ :=
  ⟨rfl, rfl⟩

/-- Claim C7: process_response returns exactly the response it was given;
logging entries are its only output besides the unchanged response. -/
theorem C7_pass_through (m : LoggingMiddleware) (request : Request) (response : Response) :
    (m.process_response request response).2 = response := rfl

/-- Claim C9: truncation returns the very input value (str stays str,
bytes stay bytes) when the length is within the limit, but a bytes message
over the limit becomes a str embedding the textual repr of the byte slice
followed by the marker, not the raw byte prefix. -/
theorem C9_type_preservation (msg : Body) (N : Nat) :
    (msg.len ≤ N → _chunked_to_max (N : Int) msg = msg) ∧
    (∀ b : List Nat, msg = Body.bytes b → N < b.length →
      _chunked_to_max (N : Int) msg = Body.str (bytesRepr (b.take N) ++ "\n...\n")) := by
  constructor
  · intro h
    unfold _chunked_to_max
    rw [if_neg]
    intro hlt
    have : (N : Int) < (msg.len : Int) := by simpa using hlt
    omega
  · rintro b rfl h
    have hcond : ((Body.bytes b).len : Int) > (N : Int) := by
      simp only [Body.len]
      exact_mod_cast h
    unfold _chunked_to_max
    rw [if_pos hcond]
    simp [Body.slice0, sliceStop_ofNat, pyFormat]

/-- Claim C9 witness: a two byte body kept whole under limit 5 and cut to
its repr under limit 1. -/
theorem C9_type_preservation_witness :
    _chunked_to_max 5 (Body.bytes [104, 105]) = Body.bytes [104, 105] ∧
    _chunked_to_max 1 (Body.bytes [104, 105])
        = Body.str (bytesRepr ([104, 105].take 1) ++ "\n...\n") :=
  ⟨(C9_type_preservation (Body.bytes [104, 105]) 5).1 (by decide),
   (C9_type_preservation (Body.bytes [104, 105]) 1).2 [104, 105] rfl (by decide)⟩

/-- Claim C2: a response with status code in the closed range 400 to 599
makes process_response emit the status line through log_error at
logging.INFO and then, exactly when the Content-Type is an
application/json prefix match (case-insensitive), the header mapping and
the truncated content at logging.ERROR. -/
theorem C2_process_response_error (m : LoggingMiddleware) (request : Request)
    (response : Response) (h1 : 400 ≤ response.status_code)
    (h2 : response.status_code ≤ 599) :
    (m.process_response request response).1 =
      m.logger.log_error logging.INFO
          (Msg.str (request.method ++ " " ++ request.full_path ++ " - "
            ++ toString response.status_code)) ::
        (if jsonContentMatch response then
          [m.logger.log logging.ERROR (Msg.dict response.headers),
           m.logger.log logging.ERROR
             (Body.toMsg (_chunked_to_max m.max_body_length (Body.bytes response.content)))]
         else []) := by
  have hc : 400 ≤ response.status_code ∧ response.status_code < 600 := ⟨h1, by omega⟩
  simp only [LoggingMiddleware.process_response, LoggingMiddleware._log_resp, if_pos hc]

/-- Claim C2 witness: the 404 JSON response through the default
middleware. -/
theorem C2_process_response_error_witness :
    (mw0.process_response req0 resp404).1 =
      mw0.logger.log_error logging.INFO
          (Msg.str (req0.method ++ " " ++ req0.full_path ++ " - "
            ++ toString resp404.status_code)) ::
        (if jsonContentMatch resp404 then
          [mw0.logger.log logging.ERROR (Msg.dict resp404.headers),
           mw0.logger.log logging.ERROR
             (Body.toMsg (_chunked_to_max mw0.max_body_length (Body.bytes resp404.content)))]
         else []) :=
  C2_process_response_error mw0 req0 resp404 (by decide) (by decide)

/-- Claim C4: a response with status code outside 400 to 599 makes
process_response emit the status line through the normal log at
logging.INFO and the details at the configured level only for JSON typed
responses; with a non JSON Content-Type exactly the status line is
emitted. -/
theorem C4_process_response_normal (m : LoggingMiddleware) (request : Request)
    (response : Response)
    (h : ¬ (400 ≤ response.status_code ∧ response.status_code ≤ 599)) :
    (m.process_response request response).1 =
      m.logger.log logging.INFO
          (Msg.str (request.method ++ " " ++ request.full_path ++ " - "
            ++ toString response.status_code)) ::
        (if jsonContentMatch response then
          [m.logger.log m.log_level (Msg.dict response.headers),
           m.logger.log m.log_level
             (Body.toMsg (_chunked_to_max m.max_body_length (Body.bytes response.content)))]
         else []) ∧
    (jsonContentMatch response = false →
      (m.process_response request response).1 =
        [m.logger.log logging.INFO
          (Msg.str (request.method ++ " " ++ request.full_path ++ " - "
            ++ toString response.status_code))]) := by
  have hc : ¬ (400 ≤ response.status_code ∧ response.status_code < 600) := by
    intro hx
    exact h ⟨hx.1, by omega⟩
  constructor
  · simp only [LoggingMiddleware.process_response, LoggingMiddleware._log_resp, if_neg hc]
  · intro hj
    simp only [LoggingMiddleware.process_response, LoggingMiddleware._log_resp, if_neg hc, hj,
      Bool.false_eq_true, if_false]

/-- Claim C4 witness: the 200 text/plain response through the default
middleware yields exactly the status line. -/
theorem C4_process_response_normal_witness :
    (mw0.process_response req0 resp200).1 =
      [mw0.logger.log logging.INFO
        (Msg.str (req0.method ++ " " ++ req0.full_path ++ " - "
          ++ toString resp200.status_code))] :=
  (C4_process_response_normal mw0 req0 resp200 (by decide)).2 (by decide)

/-- Claim C5: process_request first emits the method and full path at
logging.INFO, then the HTTP_-prefixed META entries at the configured
level exactly when some exist, then the truncated body at the configured
level exactly when the body is non-empty; with no matching entry and an
empty body exactly the one status line is emitted. -/
theorem C5_process_request (m : LoggingMiddleware) (request : Request) :
    m.process_request request =
      m.logger.log logging.INFO (Msg.str (request.method ++ " " ++ request.full_path)) ::
        ((if (request.META.filter fun kv => strStartsWithB kv.1 "HTTP_") = [] then []
          else [m.logger.log m.log_level
                  (Msg.dict (request.META.filter fun kv => strStartsWithB kv.1 "HTTP_"))]) ++
         (if request.body = [] then []
          else [m.logger.log m.log_level
                  (Body.toMsg (_chunked_to_max m.max_body_length (Body.bytes request.body)))])) ∧
    ((request.META.filter fun kv => strStartsWithB kv.1 "HTTP_") = [] → request.body = [] →
      m.process_request request =
        [m.logger.log logging.INFO (Msg.str (request.method ++ " " ++ request.full_path))]) := by
  constructor
  · rfl
  · intro hh hb
    simp [LoggingMiddleware.process_request, hh, hb]

/-- Claim C5 witness: a GET request for /x?y=1 with no HTTP_ entry and an
empty body yields the single status line. -/
theorem C5_process_request_witness :
    mw0.process_request req0 =
      [mw0.logger.log logging.INFO (Msg.str (req0.method ++ " " ++ req0.full_path))] :=
  (C5_process_request mw0 req0).2 (by decide) (by decide)

/-- Claim C6: the constructor returns a middleware exactly when the
resolved log level is one of the six known constants, the resolved
colorize flag is a bool and the resolved max body length is an int; with
all settings absent it succeeds with the documented defaults, and a max
body length given as the string 100 fails. -/
theorem C6_init_validation (settings : Settings) :
    okB (LoggingMiddleware.init settings)
        = (levelSettingOK settings && colorizeSettingOK settings && maxBodySettingOK settings) ∧
    LoggingMiddleware.init ⟨none, none, none⟩
        = Except.ok ⟨logging.DEBUG, DEFAULT_MAX_BODY_LENGTH, LoggerKind.colour "cyan" "magenta"⟩ ∧
    okB (LoggingMiddleware.init ⟨none, none, some (PyVal.vStr "100")⟩) = false := by
  refine ⟨?_, rfl, rfl⟩
  cases hl : levelSettingOK settings with
  | false => simp [LoggingMiddleware.init, okB, hl]
  | true =>
      simp only [LoggingMiddleware.init, hl, Bool.true_eq_false, if_false, Bool.true_and]
      cases hcz : settings.colorize.getD (PyVal.vBool DEFAULT_COLORIZE) with
      | vBool b =>
          cases hmb : settings.max_body_length.getD (PyVal.vInt DEFAULT_MAX_BODY_LENGTH) <;>
            simp [okB, colorizeSettingOK, maxBodySettingOK, hcz, hmb]
      | vInt n => simp [okB, colorizeSettingOK, hcz]
      | vStr s => simp [okB, colorizeSettingOK, hcz]

/-- Claim C8, counterexample: with max body length -1 the non-empty body
abc is cut by the Python slice msg[0:-1] to ab, not to the empty prefix,
so the output is not just the marker. -/
theorem C8_counterexample :
    ¬ (_chunked_to_max (-1) (Body.str "abc") = Body.str "\n...\n") := by decide

/-- Claim C8 (amended): construction succeeds for every integer max body
length, including zero and negatives; with max body length 0 every
non-empty body is truncated to an empty prefix plus the marker, while a
negative value cuts from the end by Python slice semantics. -/
theorem C8_no_positivity_check (N : Int) (b : Body) (hb : 0 < b.len) :
    LoggingMiddleware.init ⟨none, none, some (PyVal.vInt N)⟩
        = Except.ok ⟨logging.DEBUG, N, LoggerKind.colour "cyan" "magenta"⟩ ∧
    _chunked_to_max 0 b = Body.str (pyFormat (b.slice0 0) ++ "\n...\n") ∧
    (b.slice0 0).len = 0 ∧
    _chunked_to_max (-1) (Body.str "abc") = Body.str "ab\n...\n" := by
  refine ⟨rfl, ?_, ?_, by decide⟩
  · unfold _chunked_to_max
    rw [if_pos]
    exact_mod_cast hb
  · cases b with
    | str s => simp [Body.slice0, Body.len, sliceStop, String.length]
    | bytes l => simp [Body.slice0, Body.len, sliceStop]

/-- Claim C8 witness: concrete instance with max body length -7 at
construction and the one character body a truncated under limit 0. -/
theorem C8_no_positivity_check_witness :
    LoggingMiddleware.init ⟨none, none, some (PyVal.vInt (-7))⟩
        = Except.ok ⟨logging.DEBUG, -7, LoggerKind.colour "cyan" "magenta"⟩ ∧
    _chunked_to_max 0 (Body.str "a")
        = Body.str (pyFormat ((Body.str "a").slice0 0) ++ "\n...\n") ∧
    ((Body.str "a").slice0 0).len = 0 ∧
    _chunked_to_max (-1) (Body.str "abc") = Body.str "ab\n...\n" :=
  C8_no_positivity_check (-7) (Body.str "a") (by decide)

/-- Claim C10: an integer log level setting is accepted exactly when it is
one of 0, 10, 20, 30, 40 and 50; every string is rejected, as are the
intermediate integers 15 and 25. -/
theorem C10_accepted_levels (n : Int) (s : String) :
    (okB (LoggingMiddleware.init ⟨some (PyVal.vInt n), none, none⟩) = true ↔
      n = 0 ∨ n = 10 ∨ n = 20 ∨ n = 30 ∨ n = 40 ∨ n = 50) ∧
    okB (LoggingMiddleware.init ⟨some (PyVal.vStr s), none, none⟩) = false ∧
    okB (LoggingMiddleware.init ⟨some (PyVal.vInt 15), none, none⟩) = false ∧
    okB (LoggingMiddleware.init ⟨some (PyVal.vInt 25), none, none⟩) = false := by
  refine ⟨?_, rfl, rfl, rfl⟩
  constructor
  · intro hok
    by_contra hn
    push_neg at hn
    obtain ⟨h0, h10, h20, h30, h40, h50⟩ := hn
    simp [LoggingMiddleware.init, levelSettingOK, okB, pyEqInt, logging.NOTSET, logging.DEBUG,
      logging.INFO, logging.WARNING, logging.ERROR, logging.CRITICAL,
      h0, h10, h20, h30, h40, h50] at hok
  · intro hn
    rcases hn with rfl | rfl | rfl | rfl | rfl | rfl <;> rfl
